import Mathlib

/-!
Verification of the Risk Scoring & Dynamic Pricing Engine of the
Telematics-UBI repository.

The repository snapshot holds the README (with the Dynamic Pricing Engine
band table), the markdown documentation (`docs/data_model.md`,
`docs/api_contract.md`) and the React frontend (`src/frontend`), but the
Python backend (`src/backend`, the implementation of the band classifier,
expected-loss calculator and pricing rule engine) is absent.  The engine
is therefore modelled from the specification, and the frontend client
types are embedded from `src/frontend/src/types/index.ts` and
`src/frontend/src/utils/api.ts`.

Scores, premiums and deltas are modelled as rationals (the backend works
with finite decimal values; `DECIMAL(p,s)` columns in the data model),
timestamps as integers (days), and fallible computations return `Except`.
-/

namespace TelematicsUBI

/-- Risk band, `A` (lowest risk) through `E` (highest risk); the five-valued
`band` column of `risk_scores` and the `band` union type of
`src/frontend/src/types/index.ts`. -/
inductive Band
  | A
  | B
  | C
  | D
  | E
deriving DecidableEq

/-- Modelled from the spec: the Band Classifier of the absent backend.
Breakpoints per spec section 4.2 and the README band table, closed-open
intervals with the higher band taking a score that sits exactly on a
breakpoint: A:[85,100], B:[70,85), C:[55,70), D:[40,55), E:[0,40). -/
def classifyBand (s : ℚ) : Band :=
  if 85 ≤ s then .A
  else if 70 ≤ s then .B
  else if 55 ≤ s then .C
  else if 40 ≤ s then .D
  else .E

/-- Membership of a score in a band's interval, written out from the
breakpoints the spec states (highest band inclusive at 100).  This is the
interval semantics the classifier is compared against. -/
def inBand : Band → ℚ → Prop
  | .A, s => 85 ≤ s ∧ s ≤ 100
  | .B, s => 70 ≤ s ∧ s < 85
  | .C, s => 55 ≤ s ∧ s < 70
  | .D, s => 40 ≤ s ∧ s < 55
  | .E, s => 0 ≤ s ∧ s < 40

instance (b : Band) (s : ℚ) : Decidable (inBand b s) := by
  cases b <;> simp only [inBand] <;> infer_instance

/-- Typed error taxonomy of the engine, per spec section 7 and the error-code
table of `docs/api_contract.md`. -/
inductive EngineError
  | InvalidModelOutput
  | InvalidScore
  | PricingError
  | FairnessViolation
  | ModelNotAvailable
deriving DecidableEq

/-- Model output consumed by the engine: claim probability, claim severity
and the model version string, per the data model's `risk_scores` columns. -/
structure ModelOutput where
  claim_probability : ℚ
  claim_severity : ℚ
  model_version : String
deriving DecidableEq

/-- Modelled from the spec: round-half-to-even to an integer, used by the
absent Expected Loss Calculator for minor-unit rounding.  At an exact half
the result is the even neighbour. -/
def roundHalfEven (x : ℚ) : ℤ :=
  if x - ⌊x⌋ < 1/2 then ⌊x⌋
  else if (1:ℚ)/2 < x - ⌊x⌋ then ⌊x⌋ + 1
  else if ⌊x⌋ % 2 = 0 then ⌊x⌋ else ⌊x⌋ + 1

/-- Rounding to the currency's minor-unit precision (cents), half to even. -/
def roundToCents (x : ℚ) : ℚ := (roundHalfEven (100 * x) : ℚ) / 100

/-- Modelled from the spec: the absent Expected Loss Calculator.  Fails with
`InvalidModelOutput` when the probability leaves [0,1] or the severity is
negative (non-finite inputs have no rational representative); otherwise
returns claim_probability × claim_severity rounded half-to-even to cents.
A pure function, hence side-effect-free. -/
def expectedLoss (mo : ModelOutput) : Except EngineError ℚ :=
  if mo.claim_probability < 0 ∨ 1 < mo.claim_probability ∨ mo.claim_severity < 0 then
    .error .InvalidModelOutput
  else
    .ok (roundToCents (mo.claim_probability * mo.claim_severity))

/-- RiskScore record produced by a scoring invocation (timestamp and
storage identity excluded: those belong to the external storage layer). -/
structure RiskScoreRecord where
  score_value : ℚ
  band : Band
  expected_loss : ℚ
  model_version : String
deriving DecidableEq

/-- Modelled from the spec: the absent scoring path.  Validates the score
against [0,100] (failing with `InvalidScore`), computes the expected loss
and classifies the band. -/
def computeRiskScore (mo : ModelOutput) (score : ℚ) : Except EngineError RiskScoreRecord :=
  if score < 0 ∨ 100 < score then .error .InvalidScore
  else
    (expectedLoss mo).map fun el =>
      { score_value := score
        band := classifyBand score
        expected_loss := el
        model_version := mo.model_version }

/-- Delta range a band maps to in a BandRuleTable: the rule table entry. -/
structure BandRule where
  lo : ℚ
  hi : ℚ
deriving DecidableEq

/-- Modelled from the spec: the default band rule table of the absent
Pricing Rule Engine — README band table and spec section 4.3 documented
defaults A:[-0.20,0.00], B:-0.10, C:0.00, D:+0.10, E:+0.25 (single values
as degenerate ranges). -/
def defaultRuleTable : Band → BandRule
  | .A => ⟨-(1/5), 0⟩
  | .B => ⟨-(1/10), -(1/10)⟩
  | .C => ⟨0, 0⟩
  | .D => ⟨1/10, 1/10⟩
  | .E => ⟨1/4, 1/4⟩

/-- Lower score breakpoint of each band's sub-interval of [0,100]. -/
def bandLo : Band → ℚ
  | .A => 85
  | .B => 70
  | .C => 55
  | .D => 40
  | .E => 0

/-- Upper score breakpoint of each band's sub-interval of [0,100]. -/
def bandHi : Band → ℚ
  | .A => 100
  | .B => 85
  | .C => 70
  | .D => 55
  | .E => 40

/-- Offset of a score within its band's sub-interval, 0 at the band's lower
breakpoint and 1 at its upper one. -/
def bandOffset (b : Band) (s : ℚ) : ℚ := (s - bandLo b) / (bandHi b - bandLo b)

/-- Clamp a value into [lo, hi]. -/
def clamp (lo hi x : ℚ) : ℚ := if x < lo then lo else if hi < x then hi else x

/-- Modelled from the spec: base delta lookup of the absent Pricing Rule
Engine — the band's delta range, linearly interpolated by the offset of the
score within the band's sub-interval and clamped to the range. -/
def baseDelta (table : Band → BandRule) (s : ℚ) : ℚ :=
  let b := classifyBand s
  let r := table b
  clamp r.lo r.hi (r.lo + bandOffset b s * (r.hi - r.lo))

/-- Modelled from the spec: the guardrail clamp — the resulting delta_pct is
clamped to the system-wide hard bound [-0.5, 0.5] regardless of band table
contents. -/
def deltaPct (table : Band → BandRule) (s : ℚ) : ℚ :=
  clamp (-(1/2)) (1/2) (baseDelta table s)

/-- Most recent PremiumAdjustment of a policy as read from AdjustmentHistory
(delta and adjustment period, in days). -/
structure PriorAdjustment where
  delta_pct : ℚ
  period_start : ℤ
  period_end : ℤ
deriving DecidableEq

/-- Engine configuration: the cooldown window length in days. -/
structure EngineConfig where
  cooldownDays : ℤ
deriving DecidableEq

/-- Modelled from the spec: the cooldown test of the absent Pricing Rule
Engine — whether the prior adjustment's period overlaps the interval of
`cooldownDays` days before the current evaluation time. -/
def cooldownActive (cfg : EngineConfig) (now : ℤ) : Option PriorAdjustment → Bool
  | none => false
  | some p => decide (now - cfg.cooldownDays ≤ p.period_end) && decide (p.period_start ≤ now)

/-- Pricing quote produced by the engine (timestamps excluded); the
rationale marks a cooldown-held decision. -/
structure QuoteResult where
  band : Band
  delta_pct : ℚ
  delta_amount : ℚ
  new_premium : ℚ
  cooldown_held : Bool
  rationale : String
deriving DecidableEq

/-- Modelled from the spec: the absent Pricing Rule Engine.  Validates the
score ([0,100], else `InvalidScore`) and the base premium (positive, else
`PricingError`); inside the cooldown window it returns the prior
adjustment's delta_pct and marks the rationale cooldown-held, otherwise the
band-table delta; the resulting delta is clamped to the hard bound
[-0.5,0.5]; delta_amount and new_premium derive from base_premium. -/
def pricingQuote (cfg : EngineConfig) (table : Band → BandRule) (now : ℤ)
    (hist : Option PriorAdjustment) (score base_premium : ℚ) :
    Except EngineError QuoteResult :=
  if score < 0 ∨ 100 < score then .error .InvalidScore
  else if base_premium ≤ 0 then .error .PricingError
  else
    let held := cooldownActive cfg now hist
    let raw := if held then (hist.map PriorAdjustment.delta_pct).getD (baseDelta table score)
               else baseDelta table score
    let d := clamp (-(1/2)) (1/2) raw
    .ok { band := classifyBand score
          delta_pct := d
          delta_amount := base_premium * d
          new_premium := base_premium * (1 + d)
          cooldown_held := held
          rationale := if held then "cooldown-held" else "band-based adjustment" }

/-- One full engine invocation's inputs: configuration, band-table,
evaluation time, AdjustmentHistory snapshot, score and base premium. -/
structure EngineInput where
  cfg : EngineConfig
  table : Band → BandRule
  now : ℤ
  hist : Option PriorAdjustment
  score : ℚ
  base_premium : ℚ

/-- The engine as a single function of its bundled inputs. -/
def runEngine (i : EngineInput) : Except EngineError QuoteResult :=
  pricingQuote i.cfg i.table i.now i.hist i.score i.base_premium

/-- A concrete engine input used to instantiate universally quantified
theorems. -/
def sampleInput : EngineInput :=
  { cfg := ⟨30⟩
    table := defaultRuleTable
    now := 0
    hist := none
    score := 50
    base_premium := 1000 }

/-- Request body of POST /api/v1/pricing/quote, from
`src/frontend/src/types/index.ts` lines 116-120: policy_id and
base_premium optional, score required. -/
structure PricingQuoteRequest where
  policy_id : Option ℤ
  base_premium : Option ℚ
  score : ℚ

/-- Response of POST /api/v1/pricing/quote, from
`src/frontend/src/types/index.ts` lines 122-129: policy_id optional, the
five other fields required. -/
structure PricingQuoteResponse where
  policy_id : Option ℤ
  band : Band
  delta_pct : ℚ
  delta_amount : ℚ
  new_premium : ℚ
  rationale : String

/-- A wire-level pricing-quote payload before it is checked against the
declared interface: every field possibly absent. -/
structure RawPricingQuoteResponse where
  policy_id : Option ℤ
  band : Option Band
  delta_pct : Option ℚ
  delta_amount : Option ℚ
  new_premium : Option ℚ
  rationale : Option String

/-- Structural conformance of a raw payload to the declared
`PricingQuoteResponse` interface: succeeds exactly when every required
field is present; `policy_id` may be absent. -/
def decodePricingQuoteResponse (r : RawPricingQuoteResponse) :
    Option PricingQuoteResponse :=
  match r.band, r.delta_pct, r.delta_amount, r.new_premium, r.rationale with
  | some b, some dp, some da, some np, some ra =>
      some { policy_id := r.policy_id
             band := b
             delta_pct := dp
             delta_amount := da
             new_premium := np
             rationale := ra }
  | _, _, _, _, _ => none

/-- The raw payload a typed `PricingQuoteResponse` stands for. -/
def toRaw (resp : PricingQuoteResponse) : RawPricingQuoteResponse :=
  { policy_id := resp.policy_id
    band := some resp.band
    delta_pct := some resp.delta_pct
    delta_amount := some resp.delta_amount
    new_premium := some resp.new_premium
    rationale := some resp.rationale }

/-- ApiClient.getPricingQuote of `src/frontend/src/utils/api.ts` lines
158-164: posts the request and returns the response body typed as
`PricingQuoteResponse`; `post` stands for the HTTP transport. -/
def getPricingQuote (post : PricingQuoteRequest → PricingQuoteResponse)
    (request : PricingQuoteRequest) : PricingQuoteResponse :=
  post request

end TelematicsUBI

namespace TelematicsUBI

/-- Every valid score lies in the interval of the band the classifier picks. -/
theorem mem_classifyBand {s : ℚ} (h0 : 0 ≤ s) (h100 : s ≤ 100) :
    inBand (classifyBand s) s := by
  unfold classifyBand
  split_ifs with h1 h2 h3 h4 <;> simp only [inBand] <;>
    exact ⟨by linarith, by linarith⟩

/-- A score in a band's interval is classified into that band. -/
theorem inBand_classifyBand {b : Band} {s : ℚ} (h : inBand b s) :
    classifyBand s = b := by
  cases b <;> simp only [inBand] at h <;> unfold classifyBand
  · exact if_pos h.1
  · rw [if_neg (by linarith [h.2]), if_pos h.1]
  · rw [if_neg (by linarith [h.2]), if_neg (by linarith [h.2]), if_pos h.1]
  · rw [if_neg (by linarith [h.2]), if_neg (by linarith [h.2]),
      if_neg (by linarith [h.2]), if_pos h.1]
  · rw [if_neg (by linarith [h.2]), if_neg (by linarith [h.2]),
      if_neg (by linarith [h.2]), if_neg (by linarith [h.2])]

/-- C1: band classification is total on [0,100] and the five bands
partition [0,100] with no gaps or overlaps — every valid score lies in
the interval of exactly the band the classifier assigns — and a score on
a breakpoint goes to the higher band: Band(85)=A, Band(84.999)=B,
Band(70)=B, Band(69.999)=C, Band(0)=E. -/
theorem band_classification_partition :
    (∀ s : ℚ, 0 ≤ s → s ≤ 100 →
      inBand (classifyBand s) s ∧ ∀ b : Band, inBand b s → b = classifyBand s)
    ∧ classifyBand 85 = Band.A
    ∧ classifyBand (84999/1000) = Band.B
    ∧ classifyBand 70 = Band.B
    ∧ classifyBand (69999/1000) = Band.C
    ∧ classifyBand 0 = Band.E := by
  refine ⟨fun s h0 h100 => ⟨mem_classifyBand h0 h100,
      fun b hb => (inBand_classifyBand hb).symm⟩, ?_, ?_, ?_, ?_, ?_⟩
  · exact inBand_classifyBand (by simp only [inBand]; norm_num)
  · exact inBand_classifyBand (by simp only [inBand]; norm_num)
  · exact inBand_classifyBand (by simp only [inBand]; norm_num)
  · exact inBand_classifyBand (by simp only [inBand]; norm_num)
  · exact inBand_classifyBand (by simp only [inBand]; norm_num)

/-- Concrete instantiation of the partition property at score 72.3. -/
theorem band_classification_partition_witness :
    inBand (classifyBand (723/10)) (723/10) ∧ classifyBand (723/10) = Band.B := by
  refine ⟨(band_classification_partition.1 (723/10) (by norm_num) (by norm_num)).1, ?_⟩
  exact inBand_classifyBand (by simp only [inBand]; norm_num)

/-- A clamped value never drops below the lower bound. -/
theorem le_clamp {lo hi : ℚ} (x : ℚ) (h : lo ≤ hi) : lo ≤ clamp lo hi x := by
  unfold clamp
  split_ifs <;> linarith

/-- A clamped value never exceeds the upper bound. -/
theorem clamp_le {lo hi : ℚ} (x : ℚ) (h : lo ≤ hi) : clamp lo hi x ≤ hi := by
  unfold clamp
  split_ifs <;> linarith

/-- Clamping a value already inside the bounds changes nothing. -/
theorem clamp_eq_of {lo hi x : ℚ} (h1 : lo ≤ x) (h2 : x ≤ hi) : clamp lo hi x = x := by
  unfold clamp
  rw [if_neg (by linarith), if_neg (by linarith)]

/-- Base delta of a band-A score under the default table: linear in the
score's offset within [85,100], from -0.20 at 85 up to 0.00 at 100. -/
theorem baseDelta_A {s : ℚ} (h : inBand Band.A s) :
    baseDelta defaultRuleTable s = -(1/5) + (s - 85) / 75 := by
  have hs := h
  simp only [inBand] at hs
  simp only [baseDelta]
  rw [inBand_classifyBand h]
  simp only [defaultRuleTable, bandOffset, bandLo, bandHi]
  rw [show -(1/5) + (s - 85) / (100 - 85) * ((0:ℚ) - -(1/5)) = -(1/5) + (s - 85) / 75 from by
    ring]
  exact clamp_eq_of (by linarith [hs.1]) (by linarith [hs.2])

/-- Base delta of a band-B score under the default table. -/
theorem baseDelta_B {s : ℚ} (h : inBand Band.B s) :
    baseDelta defaultRuleTable s = -(1/10) := by
  simp only [baseDelta]
  rw [inBand_classifyBand h]
  norm_num [defaultRuleTable, clamp]

/-- Base delta of a band-C score under the default table. -/
theorem baseDelta_C {s : ℚ} (h : inBand Band.C s) :
    baseDelta defaultRuleTable s = 0 := by
  simp only [baseDelta]
  rw [inBand_classifyBand h]
  norm_num [defaultRuleTable, clamp]

/-- Base delta of a band-D score under the default table. -/
theorem baseDelta_D {s : ℚ} (h : inBand Band.D s) :
    baseDelta defaultRuleTable s = 1/10 := by
  simp only [baseDelta]
  rw [inBand_classifyBand h]
  norm_num [defaultRuleTable, clamp]

/-- Base delta of a band-E score under the default table. -/
theorem baseDelta_E {s : ℚ} (h : inBand Band.E s) :
    baseDelta defaultRuleTable s = 1/4 := by
  simp only [baseDelta]
  rw [inBand_classifyBand h]
  norm_num [defaultRuleTable, clamp]

/-- Final delta of a band-A score under the default table: the guardrail
clamp leaves the in-range interpolated value unchanged. -/
theorem deltaPct_A {s : ℚ} (h : inBand Band.A s) :
    deltaPct defaultRuleTable s = -(1/5) + (s - 85) / 75 := by
  have hs := h
  simp only [inBand] at hs
  unfold deltaPct
  rw [baseDelta_A h]
  exact clamp_eq_of (by linarith [hs.1]) (by linarith [hs.2])

/-- Final delta of a band-B score under the default table. -/
theorem deltaPct_B {s : ℚ} (h : inBand Band.B s) :
    deltaPct defaultRuleTable s = -(1/10) := by
  unfold deltaPct
  rw [baseDelta_B h]
  exact clamp_eq_of (by norm_num) (by norm_num)

/-- Final delta of a band-C score under the default table. -/
theorem deltaPct_C {s : ℚ} (h : inBand Band.C s) :
    deltaPct defaultRuleTable s = 0 := by
  unfold deltaPct
  rw [baseDelta_C h]
  exact clamp_eq_of (by norm_num) (by norm_num)

/-- Final delta of a band-D score under the default table. -/
theorem deltaPct_D {s : ℚ} (h : inBand Band.D s) :
    deltaPct defaultRuleTable s = 1/10 := by
  unfold deltaPct
  rw [baseDelta_D h]
  exact clamp_eq_of (by norm_num) (by norm_num)

/-- Final delta of a band-E score under the default table. -/
theorem deltaPct_E {s : ℚ} (h : inBand Band.E s) :
    deltaPct defaultRuleTable s = 1/4 := by
  unfold deltaPct
  rw [baseDelta_E h]
  exact clamp_eq_of (by norm_num) (by norm_num)

/-- Engine run outside the cooldown window: the quote carries the
band-table delta. -/
theorem pricingQuote_noCooldown (cfg : EngineConfig) (table : Band → BandRule)
    (now : ℤ) (hist : Option PriorAdjustment) (score base : ℚ)
    (h1 : 0 ≤ score) (h2 : score ≤ 100) (h3 : 0 < base)
    (hc : cooldownActive cfg now hist = false) :
    pricingQuote cfg table now hist score base =
      .ok { band := classifyBand score
            delta_pct := deltaPct table score
            delta_amount := base * deltaPct table score
            new_premium := base * (1 + deltaPct table score)
            cooldown_held := false
            rationale := "band-based adjustment" } := by
  unfold pricingQuote
  rw [if_neg (by push_neg; exact ⟨h1, h2⟩), if_neg (by linarith)]
  simp only [hc, Bool.false_eq_true, if_false, deltaPct]

/-- Engine run inside the cooldown window: the quote carries the prior
adjustment's delta unchanged and is marked cooldown-held. -/
theorem pricingQuote_cooldown (cfg : EngineConfig) (table : Band → BandRule)
    (now : ℤ) (p : PriorAdjustment) (score base : ℚ)
    (h1 : 0 ≤ score) (h2 : score ≤ 100) (h3 : 0 < base)
    (hc : cooldownActive cfg now (some p) = true)
    (hlo : -(1/2) ≤ p.delta_pct) (hhi : p.delta_pct ≤ 1/2) :
    pricingQuote cfg table now (some p) score base =
      .ok { band := classifyBand score
            delta_pct := p.delta_pct
            delta_amount := base * p.delta_pct
            new_premium := base * (1 + p.delta_pct)
            cooldown_held := true
            rationale := "cooldown-held" } := by
  unfold pricingQuote
  rw [if_neg (by push_neg; exact ⟨h1, h2⟩), if_neg (by linarith)]
  simp only [hc, if_true, Option.map_some', Option.getD_some]
  rw [clamp_eq_of hlo hhi]

/-- One plus a guardrail-clamped delta is positive. -/
theorem one_add_clamp_pos (x : ℚ) : 0 < 1 + clamp (-(1/2)) (1/2) x := by
  have h : -(1/2) ≤ clamp (-(1/2)) (1/2) x := le_clamp x (by norm_num)
  linarith

/-- C2: every quote the Pricing Rule Engine produces carries a delta_pct
inside the system-wide hard bound [-0.5, 0.5], for every band-table
configuration and every AdjustmentHistory snapshot. -/
theorem delta_pct_guardrail :
    ∀ (cfg : EngineConfig) (table : Band → BandRule) (now : ℤ)
      (hist : Option PriorAdjustment) (score base : ℚ) (q : QuoteResult),
      pricingQuote cfg table now hist score base = .ok q →
      -(1/2) ≤ q.delta_pct ∧ q.delta_pct ≤ 1/2 := by
  intro cfg table now hist score base q h
  unfold pricingQuote at h
  split_ifs at h with h1 h2
  simp only [Except.ok.injEq] at h
  rw [← h]
  exact ⟨le_clamp _ (by norm_num), clamp_le _ (by norm_num)⟩

/-- Concrete instantiation of the guardrail at score 50, base premium 1000,
default table, no prior adjustment. -/
theorem delta_pct_guardrail_witness :
    -(1/2) ≤ deltaPct defaultRuleTable 50 ∧ deltaPct defaultRuleTable 50 ≤ 1/2 :=
  delta_pct_guardrail ⟨30⟩ defaultRuleTable 0 none 50 1000 _
    (pricingQuote_noCooldown ⟨30⟩ defaultRuleTable 0 none 50 1000
      (by norm_num) (by norm_num) (by norm_num) rfl)

/-- C3: under the default rule table each band maps to its documented
default delta range (A:[-0.20,0.00], B:-0.10, C:0.00, D:+0.10, E:+0.25);
the interpolated base delta always stays inside its band's range; on band
A it is exactly the linear interpolation by the score's offset within
[85,100]; and on band B (a degenerate range) it equals -0.10 for every
band-B score. -/
theorem default_rule_table_lookup :
    (defaultRuleTable Band.A = ⟨-(1/5), 0⟩ ∧
     defaultRuleTable Band.B = ⟨-(1/10), -(1/10)⟩ ∧
     defaultRuleTable Band.C = ⟨0, 0⟩ ∧
     defaultRuleTable Band.D = ⟨1/10, 1/10⟩ ∧
     defaultRuleTable Band.E = ⟨1/4, 1/4⟩)
    ∧ (∀ s : ℚ, 0 ≤ s → s ≤ 100 →
        (defaultRuleTable (classifyBand s)).lo ≤ baseDelta defaultRuleTable s ∧
        baseDelta defaultRuleTable s ≤ (defaultRuleTable (classifyBand s)).hi)
    ∧ (∀ s : ℚ, inBand Band.A s → baseDelta defaultRuleTable s = -(1/5) + (s - 85) / 75)
    ∧ (∀ s : ℚ, inBand Band.B s → baseDelta defaultRuleTable s = -(1/10)) := by
  refine ⟨⟨rfl, rfl, rfl, rfl, rfl⟩, ?_, fun s h => baseDelta_A h, fun s h => baseDelta_B h⟩
  intro s h0 h100
  have hm := mem_classifyBand h0 h100
  cases hb : classifyBand s <;> rw [hb] at hm
  · rw [baseDelta_A hm]
    simp only [inBand] at hm
    simp only [defaultRuleTable]
    constructor <;> linarith [hm.1, hm.2]
  · rw [baseDelta_B hm]
    norm_num [defaultRuleTable]
  · rw [baseDelta_C hm]
    norm_num [defaultRuleTable]
  · rw [baseDelta_D hm]
    norm_num [defaultRuleTable]
  · rw [baseDelta_E hm]
    norm_num [defaultRuleTable]

/-- C4 counterexample: at score 78.5, base premium 1200, default table and
no prior adjustment, the engine's delta_pct is -0.10, not the -0.05 the
documented end-to-end scenario states. -/
theorem quote_scenario_counterexample :
    (pricingQuote ⟨30⟩ defaultRuleTable 0 none (157/2) 1200).map QuoteResult.delta_pct =
      .ok (-(1/10)) ∧ ((-(1/10) : ℚ) ≠ -(1/20)) := by
  have hB : inBand Band.B (157/2 : ℚ) := by simp only [inBand]; norm_num
  constructor
  · rw [pricingQuote_noCooldown ⟨30⟩ defaultRuleTable 0 none (157/2) 1200
      (by norm_num) (by norm_num) (by norm_num) rfl]
    simp [Except.map, deltaPct_B hB]
  · norm_num

/-- C4 (amended): every produced quote satisfies delta_amount =
base_premium × delta_pct, new_premium = base_premium × (1 + delta_pct) and
new_premium > 0; and the end-to-end scenario at score 78.5 with base
premium 1200 under the default table and no prior adjustment yields band B
with delta_pct = -0.10, delta_amount = -120.00 and new_premium = 1080.00. -/
theorem quote_arithmetic_identities :
    (∀ (cfg : EngineConfig) (table : Band → BandRule) (now : ℤ)
       (hist : Option PriorAdjustment) (score base : ℚ) (q : QuoteResult),
       pricingQuote cfg table now hist score base = .ok q →
       q.delta_amount = base * q.delta_pct ∧
       q.new_premium = base * (1 + q.delta_pct) ∧ 0 < q.new_premium)
    ∧ pricingQuote ⟨30⟩ defaultRuleTable 0 none (157/2) 1200 =
        .ok { band := Band.B
              delta_pct := -(1/10)
              delta_amount := -120
              new_premium := 1080
              cooldown_held := false
              rationale := "band-based adjustment" } := by
  constructor
  · intro cfg table now hist score base q h
    unfold pricingQuote at h
    split_ifs at h with h1 h2
    simp only [Except.ok.injEq] at h
    rw [← h]
    exact ⟨rfl, rfl, mul_pos (by linarith [not_le.mp h2]) (one_add_clamp_pos _)⟩
  · have hB : inBand Band.B (157/2 : ℚ) := by simp only [inBand]; norm_num
    rw [pricingQuote_noCooldown ⟨30⟩ defaultRuleTable 0 none (157/2) 1200
      (by norm_num) (by norm_num) (by norm_num) rfl]
    rw [deltaPct_B hB, inBand_classifyBand hB]
    norm_num

/-- Round-half-to-even fixes integers. -/
theorem roundHalfEven_intCast (n : ℤ) : roundHalfEven (n : ℚ) = n := by
  unfold roundHalfEven
  rw [Int.floor_intCast, sub_self, if_pos (by norm_num : (0:ℚ) < 1/2)]

/-- Round-half-to-even of a nonnegative rational is nonnegative. -/
theorem roundHalfEven_nonneg {x : ℚ} (h : 0 ≤ x) : 0 ≤ roundHalfEven x := by
  have hf : (0:ℤ) ≤ ⌊x⌋ := Int.floor_nonneg.mpr h
  unfold roundHalfEven
  split_ifs <;> omega

/-- Round-half-to-even moves a value by at most one half. -/
theorem abs_roundHalfEven_sub (x : ℚ) : |(roundHalfEven x : ℚ) - x| ≤ 1/2 := by
  have h1 : (⌊x⌋ : ℚ) ≤ x := Int.floor_le x
  have h2 : x < ⌊x⌋ + 1 := Int.lt_floor_add_one x
  unfold roundHalfEven
  split_ifs with ha hb hc <;>
    · rw [abs_le]
      constructor <;> push_cast <;> linarith

/-- Rounding to cents keeps nonnegativity. -/
theorem roundToCents_nonneg {x : ℚ} (h : 0 ≤ x) : 0 ≤ roundToCents x := by
  unfold roundToCents
  have h100 := roundHalfEven_nonneg (show (0:ℚ) ≤ 100 * x by linarith)
  have : (0:ℚ) ≤ (roundHalfEven (100 * x) : ℚ) := by exact_mod_cast h100
  linarith

/-- Rounding to cents moves a value by at most half a cent. -/
theorem abs_roundToCents_sub (x : ℚ) : |roundToCents x - x| ≤ 1/200 := by
  unfold roundToCents
  have h := abs_roundHalfEven_sub (100 * x)
  rw [show (roundHalfEven (100 * x) : ℚ) / 100 - x =
      ((roundHalfEven (100 * x) : ℚ) - 100 * x) / 100 from by ring,
    abs_div, show |(100:ℚ)| = 100 from by norm_num]
  linarith

/-- C5: for in-range model outputs the Expected Loss Calculator returns
claim_probability × claim_severity rounded half-to-even to cents — a pure
value with no side effects, nonnegative and within half a cent of the
exact product — and claim_probability 0.025 with claim_severity 5020.00
yields exactly 125.50. -/
theorem expected_loss_rounding :
    (expectedLoss ⟨1/40, 5020, "v1.0.0"⟩ = .ok (251/2))
    ∧ (∀ mo : ModelOutput, 0 ≤ mo.claim_probability → mo.claim_probability ≤ 1 →
        0 ≤ mo.claim_severity →
        expectedLoss mo = .ok (roundToCents (mo.claim_probability * mo.claim_severity)) ∧
        0 ≤ roundToCents (mo.claim_probability * mo.claim_severity) ∧
        |roundToCents (mo.claim_probability * mo.claim_severity) -
            mo.claim_probability * mo.claim_severity| ≤ 1/200) := by
  constructor
  · unfold expectedLoss
    rw [if_neg (by norm_num)]
    unfold roundToCents
    rw [show (100:ℚ) * ((1/40) * 5020) = ((12550 : ℤ) : ℚ) from by norm_num,
      roundHalfEven_intCast]
    norm_num
  · intro mo hp0 hp1 hs0
    refine ⟨?_, roundToCents_nonneg (mul_nonneg hp0 hs0), abs_roundToCents_sub _⟩
    unfold expectedLoss
    rw [if_neg (by push_neg; exact ⟨hp0, hp1, hs0⟩)]

/-- C6 counterexample: scores 70 (band B) and 100 (band A) fall in
different bands, yet the lower score receives the strictly smaller —
strictly more favorable — delta under the default table. -/
theorem monotonicity_counterexample :
    (70:ℚ) < 100 ∧ classifyBand 70 ≠ classifyBand 100 ∧
    deltaPct defaultRuleTable 70 < deltaPct defaultRuleTable 100 := by
  have h70 : inBand Band.B (70:ℚ) := by simp only [inBand]; norm_num
  have h100 : inBand Band.A (100:ℚ) := by simp only [inBand]; norm_num
  refine ⟨by norm_num, ?_, ?_⟩
  · rw [inBand_classifyBand h70, inBand_classifyBand h100]
    decide
  · rw [deltaPct_B h70, deltaPct_A h100]
    norm_num

/-- C6 (amended): under the default rule table, for valid scores s1 < s2 in
different bands, delta_pct(s1) ≥ delta_pct(s2) holds in every case except
when s1 lies in band B and s2 lies in band A with s2 > 92.5, where band
A's interpolated delta exceeds band B's fixed -0.10. -/
theorem monotonicity_across_bands_amended :
    ∀ s1 s2 : ℚ, 0 ≤ s1 → s1 ≤ 100 → 0 ≤ s2 → s2 ≤ 100 → s1 < s2 →
    classifyBand s1 ≠ classifyBand s2 →
    ¬(classifyBand s1 = Band.B ∧ classifyBand s2 = Band.A ∧ 185/2 < s2) →
    deltaPct defaultRuleTable s2 ≤ deltaPct defaultRuleTable s1 := by
  intro s1 s2 h10 h11 h20 h21 hlt hne hexc
  have m1 := mem_classifyBand h10 h11
  have m2 := mem_classifyBand h20 h21
  cases hb1 : classifyBand s1 <;> rw [hb1] at m1 <;>
    cases hb2 : classifyBand s2 <;> rw [hb2] at m2 <;>
    first
    | exact absurd (hb1.trans hb2.symm) hne
    | (rw [deltaPct_E m1, deltaPct_D m2]; norm_num)
    | (rw [deltaPct_E m1, deltaPct_C m2]; norm_num)
    | (rw [deltaPct_E m1, deltaPct_B m2]; norm_num)
    | (rw [deltaPct_D m1, deltaPct_C m2]; norm_num)
    | (rw [deltaPct_D m1, deltaPct_B m2]; norm_num)
    | (rw [deltaPct_C m1, deltaPct_B m2]; norm_num)
    | (rw [deltaPct_E m1, deltaPct_A m2]
       simp only [inBand] at m2
       linarith [m2.1, m2.2])
    | (rw [deltaPct_D m1, deltaPct_A m2]
       simp only [inBand] at m2
       linarith [m2.1, m2.2])
    | (rw [deltaPct_C m1, deltaPct_A m2]
       simp only [inBand] at m2
       linarith [m2.1, m2.2])
    | (rw [deltaPct_B m1, deltaPct_A m2]
       have hs2 : s2 ≤ 185/2 := le_of_not_lt fun hh => hexc ⟨hb1, hb2, hh⟩
       linarith)
    | (simp only [inBand] at m1 m2
       linarith [m1.1, m1.2, m2.1, m2.2, hlt])

/-- Concrete instantiation of the amended monotonicity at scores 50 (band
D) and 60 (band C). -/
theorem monotonicity_across_bands_amended_witness :
    deltaPct defaultRuleTable 60 ≤ deltaPct defaultRuleTable 50 := by
  have hD : inBand Band.D (50:ℚ) := by simp only [inBand]; norm_num
  have hC : inBand Band.C (60:ℚ) := by simp only [inBand]; norm_num
  exact monotonicity_across_bands_amended 50 60 (by norm_num) (by norm_num) (by norm_num)
    (by norm_num) (by norm_num)
    (by rw [inBand_classifyBand hD, inBand_classifyBand hC]; decide)
    (by rw [inBand_classifyBand hD]; intro h; exact absurd h.1 (by decide))

/-- C7: whenever the AdjustmentHistory holds a prior adjustment whose
period overlaps the cooldown window before the evaluation time, the engine
succeeds, returns exactly the prior adjustment's delta_pct and marks the
rationale cooldown-held — for every current score, every band table and
every base premium. -/
theorem cooldown_returns_prior_delta :
    ∀ (cfg : EngineConfig) (table : Band → BandRule) (now : ℤ) (p : PriorAdjustment)
      (score base : ℚ),
      0 ≤ score → score ≤ 100 → 0 < base →
      cooldownActive cfg now (some p) = true →
      -(1/2) ≤ p.delta_pct → p.delta_pct ≤ 1/2 →
      ∃ q : QuoteResult,
        pricingQuote cfg table now (some p) score base = .ok q ∧
        q.delta_pct = p.delta_pct ∧ q.cooldown_held = true ∧
        q.rationale = "cooldown-held" := by
  intro cfg table now p score base h1 h2 h3 hc hlo hhi
  exact ⟨_, pricingQuote_cooldown cfg table now p score base h1 h2 h3 hc hlo hhi,
    rfl, rfl, rfl⟩

/-- Concrete cooldown hold: prior adjustment ended 5 days ago, cooldown
window 30 days, materially different current score 20. -/
theorem cooldown_returns_prior_delta_witness :
    ∃ q : QuoteResult,
      pricingQuote ⟨30⟩ defaultRuleTable 100 (some ⟨-(1/20), 0, 95⟩) 20 1200 = .ok q ∧
      q.delta_pct = -(1/20) ∧ q.cooldown_held = true ∧
      q.rationale = "cooldown-held" :=
  cooldown_returns_prior_delta ⟨30⟩ defaultRuleTable 100 ⟨-(1/20), 0, 95⟩ 20 1200
    (by norm_num) (by norm_num) (by norm_num) rfl (by norm_num) (by norm_num)

/-- C8: the engine is deterministic and side-effect-free — it is embedded
as a pure function of (configuration, band table, evaluation time, history
snapshot, score, base premium), so two invocations on identical inputs
produce identical quotes, and likewise for the scoring path; the outputs
carry no timestamps (those belong to the storage layer). -/
theorem engine_deterministic :
    (∀ i j : EngineInput, i = j → runEngine i = runEngine j)
    ∧ (∀ (a b : ModelOutput) (s t : ℚ), a = b → s = t →
        computeRiskScore a s = computeRiskScore b t) :=
  ⟨fun _ _ h => by rw [h], fun _ _ _ _ h1 h2 => by rw [h1, h2]⟩

/-- Two runs of the engine on the same concrete input coincide. -/
theorem engine_deterministic_witness : runEngine sampleInput = runEngine sampleInput :=
  engine_deterministic.1 sampleInput sampleInput rfl

/-- C9: out-of-domain inputs produce the matching typed error and never a
default value — claim_probability outside [0,1] (e.g. 1.2) fails with
InvalidModelOutput, a score outside [0,100] (e.g. 101) fails with
InvalidScore, and a non-positive base premium (e.g. 0) on the pricing path
fails with PricingError; an `Except.error` run yields no score or delta. -/
theorem typed_error_paths :
    (∀ mo : ModelOutput,
       mo.claim_probability < 0 ∨ 1 < mo.claim_probability ∨ mo.claim_severity < 0 →
       expectedLoss mo = .error .InvalidModelOutput)
    ∧ expectedLoss ⟨6/5, 500, "v1.0.0"⟩ = .error .InvalidModelOutput
    ∧ (∀ (mo : ModelOutput) (score : ℚ), score < 0 ∨ 100 < score →
        computeRiskScore mo score = .error .InvalidScore)
    ∧ computeRiskScore ⟨1/40, 5020, "v1.0.0"⟩ 101 = .error .InvalidScore
    ∧ (∀ (cfg : EngineConfig) (table : Band → BandRule) (now : ℤ)
         (hist : Option PriorAdjustment) (score base : ℚ),
        score < 0 ∨ 100 < score →
        pricingQuote cfg table now hist score base = .error .InvalidScore)
    ∧ (∀ (cfg : EngineConfig) (table : Band → BandRule) (now : ℤ)
         (hist : Option PriorAdjustment) (score base : ℚ),
        0 ≤ score → score ≤ 100 → base ≤ 0 →
        pricingQuote cfg table now hist score base = .error .PricingError)
    ∧ pricingQuote ⟨30⟩ defaultRuleTable 0 none 50 0 = .error .PricingError := by
  refine ⟨?_, ?_, ?_, ?_, ?_, ?_, ?_⟩
  · intro mo h
    unfold expectedLoss
    rw [if_pos h]
  · unfold expectedLoss
    rw [if_pos (by norm_num)]
  · intro mo score h
    unfold computeRiskScore
    rw [if_pos h]
  · unfold computeRiskScore
    rw [if_pos (by norm_num)]
  · intro cfg table now hist score base h
    unfold pricingQuote
    rw [if_pos h]
  · intro cfg table now hist score base h1 h2 h3
    unfold pricingQuote
    rw [if_neg (by push_neg; exact ⟨h1, h2⟩), if_pos h3]
  · unfold pricingQuote
    rw [if_neg (by norm_num), if_pos (by norm_num)]

/-- Decoding the raw payload a typed response stands for gives back the
response itself. -/
theorem decode_toRaw (r : PricingQuoteResponse) :
    decodePricingQuoteResponse (toRaw r) = some r := rfl

/-- C10: a raw pricing-quote payload conforms to the declared
PricingQuoteResponse interface exactly when band, delta_pct, delta_amount,
new_premium and rationale are all present — policy_id being the only
optional field — and every response getPricingQuote returns conforms,
including for a request without policy_id and base_premium. -/
theorem quote_response_required_fields :
    (∀ r : RawPricingQuoteResponse,
       (decodePricingQuoteResponse r).isSome ↔
         (r.band.isSome ∧ r.delta_pct.isSome ∧ r.delta_amount.isSome ∧
          r.new_premium.isSome ∧ r.rationale.isSome))
    ∧ (∀ (post : PricingQuoteRequest → PricingQuoteResponse)
         (request : PricingQuoteRequest),
        decodePricingQuoteResponse (toRaw (getPricingQuote post request)) =
          some (getPricingQuote post request))
    ∧ (∀ (post : PricingQuoteRequest → PricingQuoteResponse)
         (request : PricingQuoteRequest),
        request.policy_id = none → request.base_premium = none →
        (decodePricingQuoteResponse (toRaw (getPricingQuote post request))).isSome) := by
  refine ⟨?_, fun post request => decode_toRaw _, fun post request h1 h2 => ?_⟩
  · intro r
    obtain ⟨pid, ob, odp, oda, onp, ora⟩ := r
    cases ob <;> cases odp <;> cases oda <;> cases onp <;> cases ora <;>
      simp [decodePricingQuoteResponse]
  · rw [decode_toRaw]
    rfl

end TelematicsUBI
